import Mathlib

set_option autoImplicit false

/-!
Verification of the stateful mock engine of `openai_responses`
(`src/openai_responses/endpoints/threads.py`): the thread / message / run
endpoint handlers, their scripted-sequence merging, assistant defaulting,
failure injection and the in-memory state store they drive.

Handlers are embedded as pure functions `... → StateStore → Response × StateStore`;
generated identifiers and timestamps (the faker and clock) are explicit inputs.
-/

namespace OpenAIResponses

/-- An open key-value map (the `metadata` payloads). -/
abbrev Metadata := List (String × String)

/-- The `Thread` entity (openai `Thread` model fields used by the handlers). -/
structure Thread where
  id : String
  created_at : Nat
  metadata : Option Metadata
deriving DecidableEq, Repr

/-- One text block `{type:"text", text:{value, annotations:[]}}` of a message. -/
structure TextBlock where
  value : String
  annotations : List String
deriving DecidableEq, Repr

/-- The `Message` entity. -/
structure Message where
  id : String
  thread_id : String
  role : String
  status : String
  content : List TextBlock
  file_ids : List String
  created_at : Nat
  metadata : Option Metadata
deriving DecidableEq, Repr

/-- A tool spec (`AssistantToolParam`); only carried around, never inspected. -/
structure Tool where
  type : String
deriving DecidableEq, Repr

/-- The `PartialFunction` from threads.py: a function name with raw arguments. -/
structure PartialFunction where
  name : String
  arguments : String
deriving DecidableEq, Repr

/-- The `PartialRequiredActionFunctionToolCall` (type is always "function"). -/
structure ToolCall where
  id : String
  function : PartialFunction
deriving DecidableEq, Repr

/-- The `RequiredAction` (type "submit_tool_outputs" with its tool calls). -/
structure RequiredAction where
  tool_calls : List ToolCall
deriving DecidableEq, Repr

/-- The `LastError` `{code, message}`. -/
structure LastError where
  code : String
  message : String
deriving DecidableEq, Repr

/-- The `Usage` token counters. -/
structure Usage where
  completion_tokens : Nat
  prompt_tokens : Nat
  total_tokens : Nat
deriving DecidableEq, Repr

/-- The `Run` entity. -/
structure Run where
  id : String
  thread_id : String
  assistant_id : String
  status : String
  required_action : Option RequiredAction
  last_error : Option LastError
  expires_at : Option Nat
  started_at : Option Nat
  cancelled_at : Option Nat
  failed_at : Option Nat
  completed_at : Option Nat
  model : String
  instructions : String
  tools : List Tool
  file_ids : List String
  created_at : Nat
  metadata : Option Metadata
  usage : Usage
deriving DecidableEq, Repr

/-- The `Assistant` entity: read-only lookup source for run defaulting. -/
structure Assistant where
  id : String
  model : String
  instructions : Option String
  file_ids : List String
  tools : List Tool
deriving DecidableEq, Repr

/-! ## State store

`state.py` is not under src; the store is modelled from the spec. -/

/-- Modelled from the spec: `put(entity)` of state.py (not in src) is an upsert
by id; insertion order is preserved for listing, so an existing id is replaced
in place and a fresh id is appended. -/
def putById {α : Type} (getId : α → String) (x : α) (xs : List α) : List α :=
  if xs.any (fun y => getId y = getId x) then
    xs.map (fun y => if getId y = getId x then x else y)
  else xs ++ [x]

/-- Modelled from the spec: `get(id) -> entity|null` of state.py (not in src). -/
def getById {α : Type} (getId : α → String) (i : String) (xs : List α) : Option α :=
  xs.find? (fun y => getId y = i)

/-- The numeric value of a decimal digit character, `none` otherwise. -/
def charDigit? (c : Char) : Option Nat :=
  if 48 ≤ c.toNat ∧ c.toNat ≤ 57 then some (c.toNat - 48) else none

/-- Decimal parsing of a query-string value: every character a digit and the
string non-empty, else invalid. -/
def decimal? (s : String) : Option Nat :=
  let ds := s.data.map charDigit?
  if s.data.isEmpty ∨ ds.any (fun d => d.isNone) then none
  else some (ds.foldl (fun n d => n * 10 + d.getD 0) 0)

/-- Modelled from the spec: the listing `limit` of state.py (not in src)
defaults to 20 when absent or invalid and is clamped to [1,100]. -/
def parseLimit (limit : Option String) : Nat :=
  match limit with
  | none => 20
  | some str =>
    match decimal? str with
    | none => 20
    | some n => min 100 (max 1 n)

/-- Modelled from the spec: `list(parent_id, limit, order, after, before)` of
state.py (not in src), applied here to an already parent-filtered collection in
creation order: `order` is asc or desc over creation order (default desc);
`after`/`before` are exclusive cursors in the current ordering, an absent
cursor id yielding an empty result; the clamped limit truncates the result. -/
def listCollection {α : Type} (getId : α → String) (items : List α)
    (limit order after before : Option String) : List α :=
  let items := if order = some "asc" then items else items.reverse
  let items :=
    match after with
    | some a =>
      match items.findIdx? (fun y => getId y = a) with
      | some i => items.drop (i + 1)
      | none => []
    | none => items
  let items :=
    match before with
    | some b =>
      match items.findIdx? (fun y => getId y = b) with
      | some i => items.take i
      | none => []
    | none => items
  items.take (parseLimit limit)

/-- The shared state store: per-entity collections in insertion order
(`state_store.beta.threads`, `…threads.messages`, `…threads.runs`,
`…assistants`). -/
structure StateStore where
  threads : List Thread
  messages : List Message
  runs : List Run
  assistants : List Assistant
deriving DecidableEq, Repr

def StateStore.empty : StateStore := ⟨[], [], [], []⟩

def StateStore.putThread (s : StateStore) (t : Thread) : StateStore :=
  { s with threads := putById Thread.id t s.threads }

def StateStore.getThread (s : StateStore) (i : String) : Option Thread :=
  getById Thread.id i s.threads

/-- Modelled from the spec: `delete(id) -> bool` of state.py (not in src)
removes the entity and reports whether it was present. -/
def StateStore.deleteThread (s : StateStore) (i : String) : Bool × StateStore :=
  (s.threads.any (fun t => t.id = i),
   { s with threads := s.threads.filter (fun t => t.id ≠ i) })

def StateStore.putMessage (s : StateStore) (m : Message) : StateStore :=
  { s with messages := putById Message.id m s.messages }

def StateStore.getMessage (s : StateStore) (i : String) : Option Message :=
  getById Message.id i s.messages

def StateStore.listMessages (s : StateStore) (thread_id : String)
    (limit order after before : Option String) : List Message :=
  listCollection Message.id (s.messages.filter (fun m => m.thread_id = thread_id))
    limit order after before

def StateStore.putRun (s : StateStore) (r : Run) : StateStore :=
  { s with runs := putById Run.id r s.runs }

def StateStore.getRun (s : StateStore) (i : String) : Option Run :=
  getById Run.id i s.runs

def StateStore.listRuns (s : StateStore) (thread_id : String)
    (limit order after before : Option String) : List Run :=
  listCollection Run.id (s.runs.filter (fun r => r.thread_id = thread_id))
    limit order after before

def StateStore.getAssistant (s : StateStore) (i : String) : Option Assistant :=
  getById Assistant.id i s.assistants

/-! ## Responses -/

/-- The JSON body of a mocked response. -/
inductive Body where
  | empty
  | thread (t : Thread)
  | message (m : Message)
  | run (r : Run)
  | threadDeleted (id : String) (deleted : Bool)
  | messagePage (data : List Message)
  | runPage (data : List Run)
deriving DecidableEq, Repr

/-- An `httpx.Response`: status code plus JSON body. -/
structure Response where
  status_code : Nat
  body : Body
deriving DecidableEq, Repr

/-! ## Request payloads -/

/-- The `MessageCreateParams` (also the `Message` entries of `ThreadCreateParams`):
`content` and `role` are required, `file_ids` optional. -/
structure MessageCreateParams where
  content : String
  role : String
  file_ids : Option (List String) := none
deriving DecidableEq, Repr

/-- The `ThreadCreateParams`: optional metadata and optional initial messages
(`content.get("metadata")`, `content.get("messages", [])`). -/
structure ThreadCreateParams where
  metadata : Option Metadata := none
  messages : List MessageCreateParams := []
deriving DecidableEq, Repr

/-- The `ThreadUpdateParams`: the outer `Option` is presence of the `metadata` key
in the body, the inner one nullability of its value. -/
structure ThreadUpdateParams where
  metadata : Option (Option Metadata) := none
deriving DecidableEq, Repr

/-- The `MessageUpdateParams`: as for threads, presence then nullability. -/
structure MessageUpdateParams where
  metadata : Option (Option Metadata) := none
deriving DecidableEq, Repr

/-- The `RunCreateParams`: the handlers read `assistant_id` and `metadata`. -/
structure RunCreateParams where
  assistant_id : String
  metadata : Option Metadata := none
deriving DecidableEq, Repr

/-! ## Failure injection -/

/-- Modelled from the spec: the `side_effect` decorator of decorators.py (not
in src). While the handler's invocation count is within the configured failure
budget — the 0-based route call count at invocation time is below `failures` —
the call short-circuits with a transient 500 response and the wrapped handler's
normal logic never runs; afterwards the handler behaves normally. -/
def sideEffect (failures call_count : Nat)
    (handler : StateStore → Response × StateStore)
    (state_store : StateStore) : Response × StateStore :=
  if call_count < failures then ({ status_code := 500, body := .empty }, state_store)
  else handler state_store

/-! ## MessagesMock -/

namespace MessagesMock

/-- The `MessagesMock._parse_message_create_params`: build a `Message` from create
params; the generated id and timestamp are explicit inputs. -/
def parseMessageCreateParams (id : String) (now : Nat) (thread_id : String)
    (create_message : MessageCreateParams) : Message :=
  { id := id
    content := [{ value := create_message.content, annotations := [] }]
    created_at := now
    file_ids := create_message.file_ids.getD []
    role := create_message.role
    status := "completed"
    thread_id := thread_id
    metadata := none }

/-- The `MessagesMock._create` (body inside the `side_effect` decorator). -/
def create (newMessageId : String) (now : Nat) (thread_id : String)
    (validate_thread_exists : Bool) (content : MessageCreateParams)
    (state_store : StateStore) : Response × StateStore :=
  if validate_thread_exists ∧ (state_store.getThread thread_id).isNone then
    ({ status_code := 404, body := .empty }, state_store)
  else
    let message := parseMessageCreateParams newMessageId now thread_id content
    ({ status_code := 201, body := .message message }, state_store.putMessage message)

/-- The `MessagesMock._list` (body inside the `side_effect` decorator). -/
def list (thread_id : String) (validate_thread_exists : Bool)
    (limit order after before : Option String)
    (state_store : StateStore) : Response × StateStore :=
  if validate_thread_exists ∧ (state_store.getThread thread_id).isNone then
    ({ status_code := 404, body := .empty }, state_store)
  else
    ({ status_code := 200,
       body := .messagePage (state_store.listMessages thread_id limit order after before) },
     state_store)

/-- The `MessagesMock._retrieve` (body inside the `side_effect` decorator). -/
def retrieve (thread_id id : String) (validate_thread_exists : Bool)
    (state_store : StateStore) : Response × StateStore :=
  if validate_thread_exists ∧ (state_store.getThread thread_id).isNone then
    ({ status_code := 404, body := .empty }, state_store)
  else
    match state_store.getMessage id with
    | none => ({ status_code := 404, body := .empty }, state_store)
    | some message => ({ status_code := 200, body := .message message }, state_store)

/-- The `MessagesMock._update` (body inside the `side_effect` decorator): replace
metadata when the body carries the key, keep it otherwise; persist. -/
def update (thread_id id : String) (validate_thread_exists : Bool)
    (content : MessageUpdateParams)
    (state_store : StateStore) : Response × StateStore :=
  if validate_thread_exists ∧ (state_store.getThread thread_id).isNone then
    ({ status_code := 404, body := .empty }, state_store)
  else
    match state_store.getMessage id with
    | none => ({ status_code := 404, body := .empty }, state_store)
    | some message =>
      let message := { message with metadata := content.metadata.getD message.metadata }
      ({ status_code := 200, body := .message message }, state_store.putMessage message)

end MessagesMock

/-! ## ThreadsMock -/

namespace ThreadsMock

/-- The `ThreadsMock._create` (body inside the `side_effect` decorator): build the
thread, parse each entry of the optional `messages` array, persist the thread
and then every parsed message; respond 201 with the thread only. -/
def create (newThreadId : String) (msgId : Nat → String) (now : Nat)
    (content : ThreadCreateParams) (state_store : StateStore) : Response × StateStore :=
  let thread : Thread := { id := newThreadId, created_at := now, metadata := content.metadata }
  let messages := content.messages.enum.map
    (fun im => MessagesMock.parseMessageCreateParams (msgId im.1) now thread.id im.2)
  let s1 := state_store.putThread thread
  let s2 := messages.foldl (fun st m => st.putMessage m) s1
  ({ status_code := 201, body := .thread thread }, s2)

/-- The `ThreadsMock._retrieve` (body inside the `side_effect` decorator). -/
def retrieve (id : String) (state_store : StateStore) : Response × StateStore :=
  match state_store.getThread id with
  | none => ({ status_code := 404, body := .empty }, state_store)
  | some thread => ({ status_code := 200, body := .thread thread }, state_store)

/-- The `ThreadsMock._update` (body inside the `side_effect` decorator). -/
def update (id : String) (content : ThreadUpdateParams)
    (state_store : StateStore) : Response × StateStore :=
  match state_store.getThread id with
  | none => ({ status_code := 404, body := .empty }, state_store)
  | some thread =>
    let thread := { thread with metadata := content.metadata.getD thread.metadata }
    ({ status_code := 200, body := .thread thread }, state_store.putThread thread)

/-- The `ThreadsMock._delete` (body inside the `side_effect` decorator): always
200 with a `{id, deleted, object:"thread.deleted"}` envelope. -/
def delete (id : String) (state_store : StateStore) : Response × StateStore :=
  let r := state_store.deleteThread id
  ({ status_code := 200, body := .threadDeleted id r.1 }, r.2)

end ThreadsMock

/-! ## RunsMock -/

/-- The `PartialRun` (a `TypedDict` with `total=False`): a sparse scripted
override; `none` in every field means the key is absent from the dict. -/
structure PartialRun where
  status : Option String := none
  required_action : Option RequiredAction := none
  last_error : Option LastError := none
  expires_at : Option Nat := none
  started_at : Option Nat := none
  cancelled_at : Option Nat := none
  failed_at : Option Nat := none
  completed_at : Option Nat := none
  model : Option String := none
  instructions : Option String := none
  tools : Option (List Tool) := none
  file_ids : Option (List String) := none
deriving DecidableEq, Repr

/-- Python truthiness of a `PartialRun` dict: `{}` is falsy, any present key
makes it truthy. -/
def PartialRun.isEmptyDict (p : PartialRun) : Bool :=
  p.status.isNone && p.required_action.isNone && p.last_error.isNone &&
  p.expires_at.isNone && p.started_at.isNone && p.cancelled_at.isNone &&
  p.failed_at.isNone && p.completed_at.isNone && p.model.isNone &&
  p.instructions.isNone && p.tools.isNone && p.file_ids.isNone

/-- The `MultiMethodSequence`: the per-method scripted lists (absent key ↦ `[]`,
matching `sequence.get(method, [])`). -/
structure MultiMethodSequence where
  create : List PartialRun := []
  retrieve : List PartialRun := []
deriving DecidableEq, Repr

/-- The `method` argument of `RunsMock._next_partial_run`. -/
inductive RunMethod where
  | create
  | retrieve
deriving DecidableEq, Repr

/-- Python list subscription `xs[i]` for a possibly negative index: a negative
index counts from the end of the list, and an index out of the range
`[-len, len)` raises `IndexError` (here: `none`). -/
def pyGetItem {α : Type} (xs : List α) (i : Int) : Option α :=
  let j : Int := if i < 0 then i + xs.length else i
  if h : 0 ≤ j ∧ j < xs.length then some (xs.get ⟨j.toNat, by omega⟩) else none

/-- The `RunsMock._next_partial_run`: index the scripted list of the method at
`call_count - failures`, `IndexError` yielding no override. -/
def RunsMock.nextPartialRun (sequence : MultiMethodSequence)
    (call_count failures : Nat) (method : RunMethod) : Option PartialRun :=
  let used_sequence := match method with
    | .create => sequence.create
    | .retrieve => sequence.retrieve
  pyGetItem used_sequence ((call_count : Int) - (failures : Int))

/-- Modelled from the spec: `AssistantsMock._parse_tool_params` of
assistants.py (not in src) converts a list of tool param dicts into the typed
tool objects; with both sides represented by `Tool` here it is the identity. -/
def AssistantsMock.parseToolParams (tools : List Tool) : List Tool := tools

/-- Modelled from the spec: `model_parse` of utils.py (not in src) parses an
optional payload dict into the typed model, `None` yielding `None`; partial
values are already structured in this embedding, so it is the identity. -/
def modelParse {α : Type} (x : Option α) : Option α := x

/-- The `RunsMock._merge_partial_run_with_assistant`: for a falsy (empty) partial,
a dict of the assistant's four default fields; otherwise a dict of those four
fields with the partial's values winning. Note the result carries only
`file_ids`, `instructions`, `model` and `tools`. -/
def RunsMock.mergePartialRunWithAssistant (run : PartialRun) (asst : Assistant) :
    PartialRun :=
  if run.isEmptyDict then
    { file_ids := some asst.file_ids
      instructions := some (asst.instructions.getD "")
      model := some asst.model
      tools := some asst.tools }
  else
    { file_ids := some (run.file_ids.getD asst.file_ids)
      instructions := some (run.instructions.getD (asst.instructions.getD ""))
      model := some (run.model.getD asst.model)
      tools := some (run.tools.getD asst.tools) }

/-- The `RunsMock._create` (body inside the `side_effect` decorator): optional
thread validation, scripted override lookup, optional assistant validation and
defaulting, then the `Run(...)` construction with its hardcoded defaults;
persist and respond 201. -/
def RunsMock.create (newRunId : String) (now : Nat) (thread_id : String)
    (sequence : MultiMethodSequence) (validate_thread_exists : Bool)
    (validate_assistant_exists : Bool) (failures call_count : Nat)
    (content : RunCreateParams) (state_store : StateStore) : Response × StateStore :=
  if validate_thread_exists ∧ (state_store.getThread thread_id).isNone then
    ({ status_code := 404, body := .empty }, state_store)
  else
    let scripted0 := (RunsMock.nextPartialRun sequence call_count failures .create).getD {}
    let withAsst : Option PartialRun :=
      if validate_assistant_exists then
        match state_store.getAssistant content.assistant_id with
        | none => none
        | some asst => some (RunsMock.mergePartialRunWithAssistant scripted0 asst)
      else some scripted0
    match withAsst with
    | none => ({ status_code := 404, body := .empty }, state_store)
    | some p =>
      let run : Run :=
        { id := newRunId
          created_at := now
          thread_id := thread_id
          assistant_id := content.assistant_id
          status := p.status.getD "queued"
          required_action := modelParse p.required_action
          last_error := modelParse p.last_error
          expires_at := p.expires_at
          started_at := p.started_at
          cancelled_at := p.cancelled_at
          failed_at := p.failed_at
          completed_at := p.completed_at
          model := p.model.getD "gpt-3.5-turbo"
          instructions := p.instructions.getD ""
          tools := AssistantsMock.parseToolParams (p.tools.getD [])
          file_ids := p.file_ids.getD []
          metadata := content.metadata
          usage := { completion_tokens := 0, prompt_tokens := 0, total_tokens := 0 } }
      ({ status_code := 201, body := .run run }, state_store.putRun run)

/-- The `RunsMock._retrieve` (NOT decorated with `side_effect` in the source):
optional thread validation, run lookup, scripted override lookup, optional
assistant defaulting when the assistant exists, field-by-field merge onto the
stored run (`required_action`, `last_error` and `tools` only when truthy),
persist the merged run and respond 200. -/
def RunsMock.retrieve (thread_id id : String) (sequence : MultiMethodSequence)
    (validate_thread_exists : Bool) (validate_assistant_exists : Bool)
    (failures call_count : Nat) (state_store : StateStore) : Response × StateStore :=
  if validate_thread_exists ∧ (state_store.getThread thread_id).isNone then
    ({ status_code := 404, body := .empty }, state_store)
  else
    match state_store.getRun id with
    | none => ({ status_code := 404, body := .empty }, state_store)
    | some run =>
      let scripted0 := (RunsMock.nextPartialRun sequence call_count failures .retrieve).getD {}
      let p :=
        if validate_assistant_exists then
          match state_store.getAssistant run.assistant_id with
          | some asst => RunsMock.mergePartialRunWithAssistant scripted0 asst
          | none => scripted0
        else scripted0
      let run := { run with
        status := p.status.getD run.status
        expires_at := (p.expires_at.map some).getD run.expires_at
        started_at := (p.started_at.map some).getD run.started_at
        cancelled_at := (p.cancelled_at.map some).getD run.cancelled_at
        failed_at := (p.failed_at.map some).getD run.failed_at
        completed_at := (p.completed_at.map some).getD run.completed_at
        model := p.model.getD run.model
        instructions := p.instructions.getD run.instructions
        file_ids := p.file_ids.getD run.file_ids }
      let run := match p.required_action with
        | some ra => { run with required_action := modelParse (some ra) }
        | none => run
      let run := match p.last_error with
        | some le => { run with last_error := modelParse (some le) }
        | none => run
      let run := match p.tools with
        | some ts =>
          if ts.isEmpty then run
          else { run with tools := AssistantsMock.parseToolParams ts }
        | none => run
      ({ status_code := 200, body := .run run }, state_store.putRun run)

/-- The `RunsMock._list` (NOT decorated with `side_effect` in the source): optional
thread validation, then the store listing; sequences and assistant validation
are ignored (the source's TODO branches do nothing). -/
def RunsMock.list (thread_id : String) (sequence : MultiMethodSequence)
    (validate_thread_exists : Bool) (validate_assistant_exists : Bool)
    (limit order after before : Option String)
    (state_store : StateStore) : Response × StateStore :=
  if validate_thread_exists ∧ (state_store.getThread thread_id).isNone then
    ({ status_code := 404, body := .empty }, state_store)
  else
    ({ status_code := 200,
       body := .runPage (state_store.listRuns thread_id limit order after before) },
     state_store)

/-! ## Registered routes

`_register_routes` wires each verb to its handler; every handler except
`RunsMock._retrieve` and `RunsMock._list` is wrapped by the `side_effect`
decorator, which injects latency and the leading transient failures. -/

def ThreadsMock.createRoute (failures call_count : Nat) (newThreadId : String)
    (msgId : Nat → String) (now : Nat) (content : ThreadCreateParams)
    (s : StateStore) : Response × StateStore :=
  sideEffect failures call_count (ThreadsMock.create newThreadId msgId now content) s

def ThreadsMock.retrieveRoute (failures call_count : Nat) (id : String)
    (s : StateStore) : Response × StateStore :=
  sideEffect failures call_count (ThreadsMock.retrieve id) s

def ThreadsMock.updateRoute (failures call_count : Nat) (id : String)
    (content : ThreadUpdateParams) (s : StateStore) : Response × StateStore :=
  sideEffect failures call_count (ThreadsMock.update id content) s

def ThreadsMock.deleteRoute (failures call_count : Nat) (id : String)
    (s : StateStore) : Response × StateStore :=
  sideEffect failures call_count (ThreadsMock.delete id) s

def MessagesMock.createRoute (failures call_count : Nat) (newMessageId : String)
    (now : Nat) (thread_id : String) (validate_thread_exists : Bool)
    (content : MessageCreateParams) (s : StateStore) : Response × StateStore :=
  sideEffect failures call_count
    (MessagesMock.create newMessageId now thread_id validate_thread_exists content) s

def MessagesMock.listRoute (failures call_count : Nat) (thread_id : String)
    (validate_thread_exists : Bool) (limit order after before : Option String)
    (s : StateStore) : Response × StateStore :=
  sideEffect failures call_count
    (MessagesMock.list thread_id validate_thread_exists limit order after before) s

def MessagesMock.retrieveRoute (failures call_count : Nat) (thread_id id : String)
    (validate_thread_exists : Bool) (s : StateStore) : Response × StateStore :=
  sideEffect failures call_count
    (MessagesMock.retrieve thread_id id validate_thread_exists) s

def MessagesMock.updateRoute (failures call_count : Nat) (thread_id id : String)
    (validate_thread_exists : Bool) (content : MessageUpdateParams)
    (s : StateStore) : Response × StateStore :=
  sideEffect failures call_count
    (MessagesMock.update thread_id id validate_thread_exists content) s

def RunsMock.createRoute (failures call_count : Nat) (newRunId : String)
    (now : Nat) (thread_id : String) (sequence : MultiMethodSequence)
    (validate_thread_exists validate_assistant_exists : Bool)
    (content : RunCreateParams) (s : StateStore) : Response × StateStore :=
  sideEffect failures call_count
    (RunsMock.create newRunId now thread_id sequence validate_thread_exists
      validate_assistant_exists failures call_count content) s

/-- The `RunsMock._retrieve` is registered without the `side_effect` decorator:
the route is the bare handler. -/
def RunsMock.retrieveRoute (failures call_count : Nat) (thread_id id : String)
    (sequence : MultiMethodSequence)
    (validate_thread_exists validate_assistant_exists : Bool)
    (s : StateStore) : Response × StateStore :=
  RunsMock.retrieve thread_id id sequence validate_thread_exists
    validate_assistant_exists failures call_count s

/-- The `RunsMock._list` is registered without the `side_effect` decorator. -/
def RunsMock.listRoute (failures call_count : Nat) (thread_id : String)
    (sequence : MultiMethodSequence)
    (validate_thread_exists validate_assistant_exists : Bool)
    (limit order after before : Option String)
    (s : StateStore) : Response × StateStore :=
  RunsMock.list thread_id sequence validate_thread_exists
    validate_assistant_exists limit order after before s

/-! ## Helper lemmas -/

theorem getById_isSome_any {α : Type} (gid : α → String) (i : String) (xs : List α) :
    (getById gid i xs).isSome = xs.any (fun y => gid y = i) := by
  induction xs with
  | nil => rfl
  | cons x xs ih =>
    by_cases h : gid x = i
    · simp [getById, List.find?_cons, h]
    · simp only [getById, List.find?_cons, h, List.any_cons]
      simpa [getById, h] using ih

theorem any_filter_ne {α : Type} (gid : α → String) (i : String) (xs : List α) :
    ((xs.filter (fun y => gid y ≠ i)).any (fun y => gid y = i)) = false := by
  induction xs with
  | nil => rfl
  | cons x xs ih =>
    by_cases h : gid x = i <;> simp [List.filter_cons, h, ih]

theorem pyGetItem_natCast {α : Type} (xs : List α) (n : Nat) :
    pyGetItem xs (n : Int) = xs.get? n := by
  unfold pyGetItem
  have h0 : ¬((n : Int) < 0) := by omega
  simp only [h0, if_false]
  by_cases h : (n : Int) < xs.length
  · rw [dif_pos ⟨by omega, h⟩]
    rw [List.get?_eq_get (by exact_mod_cast h)]
    congr 1
  · rw [dif_neg (by omega)]
    rw [List.get?_eq_none.mpr (by omega)]

theorem pyGetItem_eq_none_iff {α : Type} (xs : List α) (i : Int) :
    pyGetItem xs i = none ↔ i < -(xs.length : Int) ∨ (xs.length : Int) ≤ i := by
  unfold pyGetItem
  by_cases hneg : i < 0 <;> simp only [hneg, if_true, if_false]
  · by_cases hC : 0 ≤ i + (xs.length : Int) ∧ i + (xs.length : Int) < (xs.length : Int) <;>
      simp [hC] <;> omega
  · by_cases hC : 0 ≤ i ∧ i < (xs.length : Int) <;> simp [hC] <;> omega

theorem pyGetItem_of_nonneg {α : Type} {xs : List α} {i : Int}
    (h0 : 0 ≤ i) (h1 : i < (xs.length : Int)) :
    pyGetItem xs i = xs.get? i.toNat := by
  unfold pyGetItem
  simp only [show ¬(i < 0) by omega, if_false]
  rw [dif_pos ⟨h0, h1⟩, List.get?_eq_get (by omega)]

theorem pyGetItem_of_neg {α : Type} {xs : List α} {i : Int}
    (h0 : i < 0) (h1 : 0 ≤ i + (xs.length : Int)) :
    pyGetItem xs i = xs.get? (i + (xs.length : Int)).toNat := by
  unfold pyGetItem
  simp only [h0, if_true]
  rw [dif_pos ⟨h1, by omega⟩, List.get?_eq_get (by omega)]

theorem putById_of_fresh {α : Type} (gid : α → String) (x : α) (xs : List α)
    (h : ∀ y ∈ xs, gid y ≠ gid x) : putById gid x xs = xs ++ [x] := by
  unfold putById
  rw [if_neg]
  simp only [List.any_eq_true, decide_eq_true_eq, not_exists]
  intro y
  rintro ⟨hy, hgy⟩
  exact h y hy hgy

theorem foldl_putById_of_fresh {α : Type} (gid : α → String) (ms : List α) :
    ∀ acc : List α, (∀ m ∈ ms, ∀ y ∈ acc, gid y ≠ gid m) →
      ms.Pairwise (fun a b => gid a ≠ gid b) →
      ms.foldl (fun l m => putById gid m l) acc = acc ++ ms := by
  induction ms with
  | nil => intro acc _ _; simp
  | cons m ms ih =>
    intro acc hfresh hpw
    obtain ⟨hm, hpw'⟩ := List.pairwise_cons.mp hpw
    rw [List.foldl_cons, putById_of_fresh gid m acc (hfresh m (by simp))]
    rw [ih (acc ++ [m]) ?_ hpw']
    · simp
    · intro x hx y hy
      rcases List.mem_append.mp hy with hy | hy
      · exact hfresh x (by simp [hx]) y hy
      · simp only [List.mem_singleton] at hy
        subst hy
        exact hm x hx


theorem map_put_of_unique {α : Type} (gid : α → String) (x : α) :
    ∀ xs : List α, (∀ y ∈ xs, gid y = gid x → y = x) →
      xs.map (fun y => if gid y = gid x then x else y) = xs := by
  intro xs
  induction xs with
  | nil => intro _; rfl
  | cons z zs ih =>
    intro h
    simp only [List.map_cons]
    by_cases hz : gid z = gid x
    · rw [if_pos hz, h z (by simp) hz, ih (fun y hy hg => h y (by simp [hy]) hg)]
    · rw [if_neg hz, ih (fun y hy hg => h y (by simp [hy]) hg)]

theorem unique_of_mem_pairwise {α : Type} (gid : α → String) (x : α) :
    ∀ xs : List α, x ∈ xs → xs.Pairwise (fun a b => gid a ≠ gid b) →
      ∀ y ∈ xs, gid y = gid x → y = x := by
  intro xs
  induction xs with
  | nil => intro h; cases h
  | cons z zs ih =>
    intro hx hpw y hy hgid
    obtain ⟨hz, hpw'⟩ := List.pairwise_cons.mp hpw
    rcases List.mem_cons.mp hx with hx | hx
    · rcases List.mem_cons.mp hy with hy | hy
      · rw [hy, hx]
      · rw [hx] at hgid
        exact absurd hgid.symm (hz y hy)
    · rcases List.mem_cons.mp hy with hy | hy
      · rw [hy] at hgid
        exact absurd hgid (hz x hx)
      · exact ih hx hpw' y hy hgid

theorem putById_self {α : Type} (gid : α → String) (x : α) (xs : List α)
    (hmem : x ∈ xs) (hpw : xs.Pairwise (fun a b => gid a ≠ gid b)) :
    putById gid x xs = xs := by
  unfold putById
  rw [if_pos, map_put_of_unique gid x xs (unique_of_mem_pairwise gid x xs hmem hpw)]
  simp only [List.any_eq_true, decide_eq_true_eq]
  exact ⟨x, hmem, rfl⟩

theorem mem_of_getById {α : Type} (gid : α → String) (i : String) :
    ∀ xs : List α, ∀ x, getById gid i xs = some x → x ∈ xs := by
  intro xs
  induction xs with
  | nil => intro x h; cases h
  | cons z zs ih =>
    intro x h
    unfold getById at h
    rw [List.find?_cons] at h
    by_cases hz : gid z = i
    · simp [hz] at h
      simp [h]
    · simp [hz] at h
      exact List.mem_cons_of_mem z (ih x h)

theorem fst_lt_of_mem_enumFrom {α : Type} (l : List α) :
    ∀ (n : Nat) (p : Nat × α), p ∈ l.enumFrom n → n ≤ p.1 ∧ p.1 < n + l.length := by
  induction l with
  | nil => intro n p hp; simp [List.enumFrom] at hp
  | cons x xs ih =>
    intro n p hp
    rcases hp with _ | ⟨_, hp⟩
    · simp
    · have := ih (n + 1) p hp
      simp only [List.length_cons]
      omega

theorem pairwise_fst_lt_enumFrom {α : Type} (l : List α) :
    ∀ n : Nat, (l.enumFrom n).Pairwise (fun a b => a.1 < b.1) := by
  induction l with
  | nil => intro n; simp [List.enumFrom]
  | cons x xs ih =>
    intro n
    refine List.pairwise_cons.mpr ⟨?_, ih (n + 1)⟩
    intro p hp
    exact (fst_lt_of_mem_enumFrom xs (n + 1) p hp).1

theorem foldl_putMessage_proj (ms : List Message) :
    ∀ s : StateStore,
      (ms.foldl (fun st m => st.putMessage m) s).messages =
        ms.foldl (fun l m => putById Message.id m l) s.messages ∧
      (ms.foldl (fun st m => st.putMessage m) s).threads = s.threads ∧
      (ms.foldl (fun st m => st.putMessage m) s).runs = s.runs ∧
      (ms.foldl (fun st m => st.putMessage m) s).assistants = s.assistants := by
  induction ms with
  | nil => intro s; exact ⟨rfl, rfl, rfl, rfl⟩
  | cons m ms ih =>
    intro s
    simpa [StateStore.putMessage] using ih (s.putMessage m)

/-! ## Concrete entities for the closed theorems -/

/-- A concrete stored run. -/
def sampleRun : Run :=
  { id := "r1", thread_id := "t1", assistant_id := "a1", status := "queued"
    required_action := none, last_error := none, expires_at := none
    started_at := none, cancelled_at := none, failed_at := none
    completed_at := none, model := "gpt-3.5-turbo", instructions := ""
    tools := [{ type := "code_interpreter" }], file_ids := [], created_at := 1
    metadata := none
    usage := { completion_tokens := 0, prompt_tokens := 0, total_tokens := 0 } }

/-- A store holding only `sampleRun`. -/
def sampleStore : StateStore := { StateStore.empty with runs := [sampleRun] }

/-- A concrete assistant. -/
def sampleAssistant : Assistant :=
  { id := "a1", model := "asst-model", instructions := some "asst-inst"
    file_ids := ["af1"], tools := [{ type := "retrieval" }] }

/-- A store holding only `sampleAssistant`. -/
def storeWithAssistant : StateStore :=
  { StateStore.empty with assistants := [sampleAssistant] }

/-! ## Theorems -/

/-- C6: for every id string, the thread delete handler responds 200 with a
`{id, deleted, object:"thread.deleted"}` envelope whose id echoes the path id
and whose `deleted` flag is true exactly when a thread with that id was present
at call time; deleting the same thread twice therefore yields `deleted:true`
then `deleted:false`, and deleting an absent id is never an error. -/
theorem C6_thread_delete_envelope (s : StateStore) (id : String) :
    (ThreadsMock.delete id s).1 =
      { status_code := 200, body := .threadDeleted id (s.getThread id).isSome } ∧
    (ThreadsMock.delete id (ThreadsMock.delete id s).2).1 =
      { status_code := 200, body := .threadDeleted id false } := by
  constructor
  · simp [ThreadsMock.delete, StateStore.deleteThread, StateStore.getThread,
      getById_isSome_any]
  · simp [ThreadsMock.delete, StateStore.deleteThread, any_filter_ne]

/-- C3 counterexample: with a retrieve sequence of two entries, `failures = 1`
and route call count 0 the index `call_count - failures = -1` is negative, yet
`_next_partial_run` returns the LAST entry (Python negative indexing) instead
of no override, and the run retrieve handler applies it: the stored queued run
comes back with the scripted status "completed". -/
theorem C3_counterexample :
    RunsMock.nextPartialRun
        { retrieve := [{ status := some "in_progress" }, { status := some "completed" }] }
        0 1 .retrieve = some { status := some "completed" } ∧
    (RunsMock.retrieveRoute 1 0 "t1" "r1"
        { retrieve := [{ status := some "in_progress" }, { status := some "completed" }] }
        false false sampleStore).1.body = .run { sampleRun with status := "completed" } := by
  constructor
  · rfl
  · rfl

/-- C3 (amended): `_next_partial_run` yields no override exactly when the index
`call_count - failures` is out of Python range, i.e. `call_count + length <
failures` or `call_count ≥ failures + length`; for `failures ≤ call_count`
within range the entry at `call_count - failures` is used, and for
`call_count < failures` with `failures ≤ call_count + length` (negative index)
the entry at `length - (failures - call_count)` — counted from the end — is
used rather than no override being applied. -/
theorem C3_nextPartialRun_range (sequence : MultiMethodSequence)
    (call_count failures : Nat) (method : RunMethod) :
    let used := match method with
      | .create => sequence.create
      | .retrieve => sequence.retrieve
    (RunsMock.nextPartialRun sequence call_count failures method = none ↔
       call_count + used.length < failures ∨ failures + used.length ≤ call_count) ∧
    (failures ≤ call_count → call_count - failures < used.length →
       RunsMock.nextPartialRun sequence call_count failures method =
         used.get? (call_count - failures)) ∧
    (call_count < failures → failures ≤ call_count + used.length →
       RunsMock.nextPartialRun sequence call_count failures method =
         used.get? (used.length - (failures - call_count))) := by
  intro used
  have hused : RunsMock.nextPartialRun sequence call_count failures method =
      pyGetItem used ((call_count : Int) - (failures : Int)) := by
    cases method <;> rfl
  refine ⟨?_, ?_, ?_⟩
  · rw [hused, pyGetItem_eq_none_iff]; omega
  · intro h1 h2
    rw [hused, pyGetItem_of_nonneg (by omega) (by omega)]
    congr 1
    omega
  · intro h1 h2
    rw [hused, pyGetItem_of_neg (by omega) (by omega)]
    congr 1
    omega

/-- C3 witness: the amended characterization evaluated at a two-entry retrieve
sequence, call count 3, failure budgets 1 (in-range non-negative index) and 5
(out-of-range) and 4 (in-range negative index). -/
theorem C3_nextPartialRun_range_witness :
    RunsMock.nextPartialRun { retrieve := [{ status := some "a" }, { status := some "b" }] }
      2 1 .retrieve = some { status := some "b" } ∧
    RunsMock.nextPartialRun { retrieve := [{ status := some "a" }, { status := some "b" }] }
      3 1 .retrieve = none ∧
    RunsMock.nextPartialRun { retrieve := [{ status := some "a" }, { status := some "b" }] }
      3 4 .retrieve = some { status := some "b" } := by
  refine ⟨?_, ?_, ?_⟩
  · rw [(C3_nextPartialRun_range
      { retrieve := [{ status := some "a" }, { status := some "b" }] } 2 1 .retrieve).2.1
      (by decide) (by decide)]
    rfl
  · rw [(C3_nextPartialRun_range
      { retrieve := [{ status := some "a" }, { status := some "b" }] } 3 1 .retrieve).1.mpr
      (by decide)]
  · rw [(C3_nextPartialRun_range
      { retrieve := [{ status := some "a" }, { status := some "b" }] } 3 4 .retrieve).2.2
      (by decide) (by decide)]
    rfl

/-- C5 (the code at the failing input): a decorated route (thread retrieve)
with `failures = 1` short-circuits its first invocation with a 500, but the
run retrieve and run list routes are registered without the `side_effect`
decorator, so with `failures = 1` their first invocation performs the normal
handler logic and answers 200 instead of a transient 5xx. -/
theorem C5_run_retrieve_list_not_gated :
    (ThreadsMock.retrieveRoute 1 0 "t1" sampleStore).1.status_code = 500 ∧
    (RunsMock.retrieveRoute 1 0 "t1" "r1" {} false false sampleStore).1.status_code = 200 ∧
    (RunsMock.listRoute 1 0 "t1" {} false false none none none none
        sampleStore).1.status_code = 200 := by
  refine ⟨rfl, rfl, rfl⟩

/-- The run `RunsMock._create` builds when no scripted override and no
assistant defaulting applies: the handler's hardcoded defaults around the
payload's `assistant_id` and `metadata`. -/
def runCreateDefaults (rid tid : String) (now : Nat) (content : RunCreateParams) : Run :=
  { id := rid, thread_id := tid, assistant_id := content.assistant_id
    status := "queued", required_action := none, last_error := none
    expires_at := none, started_at := none, cancelled_at := none
    failed_at := none, completed_at := none, model := "gpt-3.5-turbo"
    instructions := "", tools := [], file_ids := [], created_at := now
    metadata := content.metadata
    usage := { completion_tokens := 0, prompt_tokens := 0, total_tokens := 0 } }

/-- C9: for every run-create request with no applicable scripted override and
no assistant defaulting, the created and stored run substitutes the documented
defaults for missing optional fields: status "queued", the default model
string "gpt-3.5-turbo", empty instructions, empty tool list, empty file-id
list, null required_action and last_error, null lifecycle timestamps, metadata
taken from the payload, and zero usage counters. -/
theorem C9_run_create_defaults (s : StateStore) (rid tid : String)
    (now call_count : Nat) (seq : MultiMethodSequence) (content : RunCreateParams)
    (hseq : RunsMock.nextPartialRun seq call_count 0 .create = none) :
    RunsMock.createRoute 0 call_count rid now tid seq false false content s =
      ({ status_code := 201, body := .run (runCreateDefaults rid tid now content) },
       s.putRun (runCreateDefaults rid tid now content)) := by
  simp [RunsMock.createRoute, sideEffect, RunsMock.create, hseq, runCreateDefaults,
    AssistantsMock.parseToolParams, modelParse]

/-- C9 witness: the defaults theorem evaluated on an empty store, an empty
sequence and a bare `{assistant_id}` payload. -/
theorem C9_run_create_defaults_witness :
    RunsMock.createRoute 0 0 "r1" 3 "t1" {} false false { assistant_id := "a1" }
        StateStore.empty =
      ({ status_code := 201,
         body := .run (runCreateDefaults "r1" "t1" 3 { assistant_id := "a1" }) },
       StateStore.empty.putRun (runCreateDefaults "r1" "t1" 3 { assistant_id := "a1" })) :=
  C9_run_create_defaults StateStore.empty "r1" "t1" 3 0 {} { assistant_id := "a1" } rfl

/-- C8: for every existing thread or message and every update request body,
the update handler changes at most the metadata field — replaced when the body
carries the `metadata` key, kept otherwise, every other stored field untouched
— persists the result and responds 200 with it; an absent entity yields 404
with the store unchanged. -/
theorem C8_update_metadata_only
    (s : StateStore) (tid1 tid2 mtid mid1 mid2 : String) (t : Thread) (m : Message)
    (tb : ThreadUpdateParams) (mb : MessageUpdateParams) (v : Bool)
    (ht : s.getThread tid1 = some t)
    (ht2 : s.getThread tid2 = none)
    (hm : s.getMessage mid1 = some m)
    (hmv : v = true → (s.getThread mtid).isSome = true)
    (hm2 : s.getMessage mid2 = none) :
    ThreadsMock.update tid1 tb s =
      ({ status_code := 200,
         body := .thread { t with metadata := tb.metadata.getD t.metadata } },
       s.putThread { t with metadata := tb.metadata.getD t.metadata }) ∧
    ThreadsMock.update tid2 tb s = ({ status_code := 404, body := .empty }, s) ∧
    MessagesMock.update mtid mid1 v mb s =
      ({ status_code := 200,
         body := .message { m with metadata := mb.metadata.getD m.metadata } },
       s.putMessage { m with metadata := mb.metadata.getD m.metadata }) ∧
    MessagesMock.update mtid mid2 v mb s = ({ status_code := 404, body := .empty }, s) := by
  have hcond : ¬(v = true ∧ (s.getThread mtid).isNone = true) := by
    rintro ⟨hv, hnone⟩
    have := hmv hv
    simp [Option.isNone_iff_eq_none] at hnone
    rw [hnone] at this
    simp at this
  refine ⟨?_, ?_, ?_, ?_⟩
  · simp [ThreadsMock.update, ht]
  · simp [ThreadsMock.update, ht2]
  · simp only [MessagesMock.update]
    rw [if_neg (by simpa using hcond)]
    simp [hm]
  · simp only [MessagesMock.update]
    rw [if_neg (by simpa using hcond)]
    simp [hm2]

/-- C8 witness: the update theorem evaluated on a store holding one thread and
one message, updating each by id and probing the absent id "zzz". -/
theorem C8_update_metadata_only_witness :
    ThreadsMock.update "t1" { metadata := some (some [("k", "v")]) }
        { StateStore.empty with
          threads := [{ id := "t1", created_at := 1, metadata := none }]
          messages := [{ id := "m1", thread_id := "t1", role := "user"
                         status := "completed", content := [], file_ids := []
                         created_at := 1, metadata := none }] } =
      ({ status_code := 200,
         body := .thread { id := "t1", created_at := 1, metadata := some [("k", "v")] } },
       { StateStore.empty with
          threads := [{ id := "t1", created_at := 1, metadata := some [("k", "v")] }]
          messages := [{ id := "m1", thread_id := "t1", role := "user"
                         status := "completed", content := [], file_ids := []
                         created_at := 1, metadata := none }] }) := by
  have h := C8_update_metadata_only
    { StateStore.empty with
      threads := [{ id := "t1", created_at := 1, metadata := none }]
      messages := [{ id := "m1", thread_id := "t1", role := "user"
                     status := "completed", content := [], file_ids := []
                     created_at := 1, metadata := none }] }
    "t1" "zzz" "t1" "m1" "zzz"
    { id := "t1", created_at := 1, metadata := none }
    { id := "m1", thread_id := "t1", role := "user", status := "completed"
      content := [], file_ids := [], created_at := 1, metadata := none }
    { metadata := some (some [("k", "v")]) } {} true
    rfl rfl rfl (fun _ => rfl) rfl
  exact h.1.trans (by rfl)

/-- C4: whenever any handler responds 404 — a missing parent thread under
`validate_thread_exists`, a missing entity on retrieve or update, or a missing
assistant under `validate_assistant_exists` on run create — that invocation
leaves the state store completely unchanged. -/
theorem C4_404_leaves_store_unchanged (f c now : Nat) (s : StateStore)
    (id tid mid rid nid : String) (tb : ThreadUpdateParams)
    (mc : MessageCreateParams) (mb : MessageUpdateParams) (rc : RunCreateParams)
    (seq : MultiMethodSequence) (vt va : Bool)
    (limit order after before : Option String) :
    ((ThreadsMock.retrieveRoute f c id s).1.status_code = 404 →
       (ThreadsMock.retrieveRoute f c id s).2 = s) ∧
    ((ThreadsMock.updateRoute f c id tb s).1.status_code = 404 →
       (ThreadsMock.updateRoute f c id tb s).2 = s) ∧
    ((MessagesMock.createRoute f c nid now tid vt mc s).1.status_code = 404 →
       (MessagesMock.createRoute f c nid now tid vt mc s).2 = s) ∧
    ((MessagesMock.listRoute f c tid vt limit order after before s).1.status_code = 404 →
       (MessagesMock.listRoute f c tid vt limit order after before s).2 = s) ∧
    ((MessagesMock.retrieveRoute f c tid mid vt s).1.status_code = 404 →
       (MessagesMock.retrieveRoute f c tid mid vt s).2 = s) ∧
    ((MessagesMock.updateRoute f c tid mid vt mb s).1.status_code = 404 →
       (MessagesMock.updateRoute f c tid mid vt mb s).2 = s) ∧
    ((RunsMock.createRoute f c nid now tid seq vt va rc s).1.status_code = 404 →
       (RunsMock.createRoute f c nid now tid seq vt va rc s).2 = s) ∧
    ((RunsMock.retrieveRoute f c tid rid seq vt va s).1.status_code = 404 →
       (RunsMock.retrieveRoute f c tid rid seq vt va s).2 = s) ∧
    ((RunsMock.listRoute f c tid seq vt va limit order after before s).1.status_code = 404 →
       (RunsMock.listRoute f c tid seq vt va limit order after before s).2 = s) := by
  refine ⟨?_, ?_, ?_, ?_, ?_, ?_, ?_, ?_, ?_⟩
  · unfold ThreadsMock.retrieveRoute sideEffect ThreadsMock.retrieve
    split
    · intro h; simp at h
    · split
      · intro _; rfl
      · intro h; simp at h
  · unfold ThreadsMock.updateRoute sideEffect ThreadsMock.update
    split
    · intro h; simp at h
    · split
      · intro _; rfl
      · intro h; simp at h
  · unfold MessagesMock.createRoute sideEffect MessagesMock.create
    split
    · intro h; simp at h
    · split
      · intro _; rfl
      · intro h; simp at h
  · unfold MessagesMock.listRoute sideEffect MessagesMock.list
    split
    · intro h; simp at h
    · split
      · intro _; rfl
      · intro h; simp at h
  · unfold MessagesMock.retrieveRoute sideEffect MessagesMock.retrieve
    split
    · intro h; simp at h
    · split
      · intro _; rfl
      · split
        · intro _; rfl
        · intro h; simp at h
  · unfold MessagesMock.updateRoute sideEffect MessagesMock.update
    split
    · intro h; simp at h
    · split
      · intro _; rfl
      · split
        · intro _; rfl
        · intro h; simp at h
  · unfold RunsMock.createRoute sideEffect RunsMock.create
    split
    · intro h; simp at h
    · split
      · intro _; rfl
      · dsimp only
        split
        · intro _; rfl
        · intro h; simp at h
  · unfold RunsMock.retrieveRoute RunsMock.retrieve
    split
    · intro _; rfl
    · split
      · intro _; rfl
      · intro h; simp at h
  · unfold RunsMock.listRoute RunsMock.list
    split
    · intro _; rfl
    · intro h; simp at h

/-- C4 witness: on the empty store with both validation toggles enabled, every
one of the nine 404-capable routes answers 404 and hands the store back
untouched. -/
theorem C4_404_leaves_store_unchanged_witness :
    (ThreadsMock.retrieveRoute 0 0 "x" StateStore.empty).2 = StateStore.empty ∧
    (ThreadsMock.updateRoute 0 0 "x" {} StateStore.empty).2 = StateStore.empty ∧
    (MessagesMock.createRoute 0 0 "m" 1 "t" true
        { content := "hi", role := "user" } StateStore.empty).2 = StateStore.empty ∧
    (MessagesMock.listRoute 0 0 "t" true none none none none
        StateStore.empty).2 = StateStore.empty ∧
    (MessagesMock.retrieveRoute 0 0 "t" "m" true StateStore.empty).2 = StateStore.empty ∧
    (MessagesMock.updateRoute 0 0 "t" "m" true {} StateStore.empty).2 = StateStore.empty ∧
    (RunsMock.createRoute 0 0 "r" 1 "t" {} true true
        { assistant_id := "a" } StateStore.empty).2 = StateStore.empty ∧
    (RunsMock.retrieveRoute 0 0 "t" "r" {} true true StateStore.empty).2 = StateStore.empty ∧
    (RunsMock.listRoute 0 0 "t" {} true true none none none none
        StateStore.empty).2 = StateStore.empty := by
  have h := C4_404_leaves_store_unchanged 0 0 1 StateStore.empty "x" "t" "m" "r" "m"
    {} { content := "hi", role := "user" } {} { assistant_id := "a" } {} true true
    none none none none
  exact ⟨h.1 rfl, h.2.1 rfl, h.2.2.1 rfl, h.2.2.2.1 rfl, h.2.2.2.2.1 rfl,
    h.2.2.2.2.2.1 rfl, h.2.2.2.2.2.2.1 rfl, h.2.2.2.2.2.2.2.1 rfl,
    h.2.2.2.2.2.2.2.2 rfl⟩

/-- C2 (the code at the failing input): with `validate_assistant_exists`
enabled and the assistant present, `_merge_partial_run_with_assistant` rebuilds
the scripted partial with only the four assistant-default fields, so a scripted
`status` of the create sequence is dropped — the created run is stored with
status "queued" instead of the scripted "in_progress" (while the unscripted
model is correctly defaulted from the assistant). -/
theorem C2_scripted_status_dropped :
    ((RunsMock.createRoute 0 0 "r9" 7 "t1"
        { create := [{ status := some "in_progress" }] } false true
        { assistant_id := "a1" } storeWithAssistant).2.runs.map
      (fun r => (r.status, r.model))) = [("queued", "asst-model")] := by
  rfl

/-- The scripted retrieve merge as the spec describes it (amended): fields
present in the partial take the scripted values and absent fields keep the
stored run's values — except that a scripted `tools` value that is the empty
list is ignored (Python truthiness) and the stored tools are kept. -/
def specMergeRun (p : PartialRun) (r : Run) : Run :=
  { id := r.id, thread_id := r.thread_id, assistant_id := r.assistant_id
    created_at := r.created_at, metadata := r.metadata, usage := r.usage
    status := p.status.getD r.status
    required_action := match p.required_action with
      | some ra => some ra
      | none => r.required_action
    last_error := match p.last_error with
      | some le => some le
      | none => r.last_error
    expires_at := (p.expires_at.map some).getD r.expires_at
    started_at := (p.started_at.map some).getD r.started_at
    cancelled_at := (p.cancelled_at.map some).getD r.cancelled_at
    failed_at := (p.failed_at.map some).getD r.failed_at
    completed_at := (p.completed_at.map some).getD r.completed_at
    model := p.model.getD r.model
    instructions := p.instructions.getD r.instructions
    file_ids := p.file_ids.getD r.file_ids
    tools := match p.tools with
      | some ts => if ts.isEmpty then r.tools else ts
      | none => r.tools }

/-- C1 counterexample: a scripted retrieve entry whose `tools` field is
present with value `[]` does not take effect — the handler keeps the stored
run's tools (the `if partial_run.get("tools")` truthiness guard rejects the
empty list), contradicting "fields present in the scripted partial take the
scripted values". -/
theorem C1_counterexample :
    (RunsMock.retrieveRoute 0 0 "t1" "r1"
        { retrieve := [{ tools := some [] }] } false false sampleStore).1.body =
      .run sampleRun ∧ sampleRun.tools ≠ [] :=
  ⟨rfl, by decide⟩

/-- C1 (amended): with no failure injection (`failures = 0`) and no assistant
defaulting, the retrieve invocation with 0-based route call count `cc` on a
stored run merges the entry of `sequence.retrieve` at index `cc` — when it
exists — onto the stored run, scripted fields winning and absent fields
keeping prior values except that a scripted empty `tools` list is ignored,
and persists the merged run; once the list is exhausted the handler returns
the stored run unchanged and re-persists it, leaving a duplicate-free store
unchanged. -/
theorem C1_run_retrieve_scripted_merge (s : StateStore) (tid rid : String)
    (run : Run) (seq : MultiMethodSequence) (cc : Nat)
    (hrun : s.getRun rid = some run) :
    (∀ p, seq.retrieve.get? cc = some p →
       RunsMock.retrieveRoute 0 cc tid rid seq false false s =
         ({ status_code := 200, body := .run (specMergeRun p run) },
          s.putRun (specMergeRun p run))) ∧
    (seq.retrieve.get? cc = none →
       RunsMock.retrieveRoute 0 cc tid rid seq false false s =
         ({ status_code := 200, body := .run run }, s.putRun run) ∧
       (s.runs.Pairwise (fun a b => a.id ≠ b.id) → s.putRun run = s)) := by
  have hnext : RunsMock.nextPartialRun seq cc 0 .retrieve = seq.retrieve.get? cc := by
    unfold RunsMock.nextPartialRun
    have h0 : ((cc : Int) - ((0 : Nat) : Int)) = ((cc : Nat) : Int) := by simp
    rw [h0, pyGetItem_natCast]
  constructor
  · intro p hp
    unfold RunsMock.retrieveRoute RunsMock.retrieve
    rw [hnext] at *
    simp only [hrun, hp, Option.getD_some]
    cases hra : p.required_action <;> cases hle : p.last_error <;> cases hts : p.tools <;>
      simp [specMergeRun, modelParse, AssistantsMock.parseToolParams, hra, hle, hts]
    all_goals (split <;> simp_all)
  · intro hp
    refine ⟨?_, ?_⟩
    · unfold RunsMock.retrieveRoute RunsMock.retrieve
      rw [hnext] at *
      simp only [hrun, hp, Option.getD_none]
      simp
    · intro hpw
      have hmem := mem_of_getById Run.id rid s.runs run hrun
      show { s with runs := putById Run.id run s.runs } = s
      rw [putById_self Run.id run s.runs hmem hpw]

/-- C1 witness: the spec's polling example on a concrete store — the first
retrieve applies the scripted "in_progress", the third (index past the
two-entry list) returns the stored run unchanged and leaves the store as it
was. -/
theorem C1_run_retrieve_scripted_merge_witness :
    RunsMock.retrieveRoute 0 0 "t1" "r1"
        { retrieve := [{ status := some "in_progress" }, { status := some "completed" }] }
        false false sampleStore =
      ({ status_code := 200, body := .run { sampleRun with status := "in_progress" } },
       sampleStore.putRun { sampleRun with status := "in_progress" }) ∧
    RunsMock.retrieveRoute 0 2 "t1" "r1"
        { retrieve := [{ status := some "in_progress" }, { status := some "completed" }] }
        false false sampleStore =
      ({ status_code := 200, body := .run sampleRun }, sampleStore.putRun sampleRun) ∧
    sampleStore.putRun sampleRun = sampleStore := by
  have h0 := C1_run_retrieve_scripted_merge sampleStore "t1" "r1" sampleRun
    { retrieve := [{ status := some "in_progress" }, { status := some "completed" }] } 0 rfl
  have h2 := C1_run_retrieve_scripted_merge sampleStore "t1" "r1" sampleRun
    { retrieve := [{ status := some "in_progress" }, { status := some "completed" }] } 2 rfl
  exact ⟨(h0.1 { status := some "in_progress" } rfl).trans (by rfl),
        (h2.2 rfl).1, (h2.2 rfl).2 (by decide)⟩

/-- C10: creating a thread whose request payload includes a `messages` array
persists, in addition to the thread itself, one message per entry into the
same store — each with `thread_id` the newly generated thread id, status
"completed", the entry's role and a single text block whose value is the
entry's content — while the 201 response body carries only the thread; the
other collections are untouched. -/
theorem C10_thread_create_persists_messages (s : StateStore) (tid : String)
    (msgId : Nat → String) (now : Nat) (content : ThreadCreateParams)
    (hfresh : ∀ i < content.messages.length, ∀ y ∈ s.messages, y.id ≠ msgId i)
    (hinj : ∀ i < content.messages.length, ∀ j < content.messages.length,
      msgId i = msgId j → i = j) :
    (ThreadsMock.create tid msgId now content s).1 =
      { status_code := 201,
        body := .thread { id := tid, created_at := now, metadata := content.metadata } } ∧
    (ThreadsMock.create tid msgId now content s).2.messages =
      s.messages ++ content.messages.enum.map (fun im =>
        { id := msgId im.1, thread_id := tid, role := im.2.role
          status := "completed"
          content := [{ value := im.2.content, annotations := [] }]
          file_ids := im.2.file_ids.getD [], created_at := now
          metadata := none : Message }) ∧
    (ThreadsMock.create tid msgId now content s).2.threads =
      putById Thread.id { id := tid, created_at := now, metadata := content.metadata }
        s.threads ∧
    (ThreadsMock.create tid msgId now content s).2.runs = s.runs ∧
    (ThreadsMock.create tid msgId now content s).2.assistants = s.assistants := by
  have hmem1 : ∀ im ∈ content.messages.enum, im.1 < content.messages.length := by
    intro im him
    have := (fst_lt_of_mem_enumFrom content.messages 0 im him).2
    omega
  have hfresh' : ∀ m ∈ content.messages.enum.map (fun im =>
      MessagesMock.parseMessageCreateParams (msgId im.1) now tid im.2),
      ∀ y ∈ s.messages, y.id ≠ m.id := by
    intro m hm y hy
    obtain ⟨im, him, rfl⟩ := List.mem_map.mp hm
    exact hfresh im.1 (hmem1 im him) y hy
  have hpw : (content.messages.enum.map (fun im =>
      MessagesMock.parseMessageCreateParams (msgId im.1) now tid im.2)).Pairwise
        (fun a b => a.id ≠ b.id) := by
    refine List.pairwise_map.mpr ?_
    refine (pairwise_fst_lt_enumFrom content.messages 0).imp_of_mem ?_
    intro a b ha hb hlt heq
    have hA := fst_lt_of_mem_enumFrom content.messages 0 a ha
    have hB := fst_lt_of_mem_enumFrom content.messages 0 b hb
    have := hinj a.1 (by omega) b.1 (by omega) heq
    omega
  have hfold := foldl_putMessage_proj
    (content.messages.enum.map (fun im =>
      MessagesMock.parseMessageCreateParams (msgId im.1) now tid im.2))
    (s.putThread { id := tid, created_at := now, metadata := content.metadata })
  have happ := foldl_putById_of_fresh Message.id
    (content.messages.enum.map (fun im =>
      MessagesMock.parseMessageCreateParams (msgId im.1) now tid im.2))
    s.messages hfresh' hpw
  refine ⟨rfl, ?_, ?_, ?_, ?_⟩
  · exact (hfold.1.trans happ)
  · exact hfold.2.1
  · exact hfold.2.2.1
  · exact hfold.2.2.2

/-- C10 witness: a two-entry `messages` array on the empty store persists the
thread plus the two parsed messages in order. -/
theorem C10_thread_create_persists_messages_witness :
    (ThreadsMock.create "t1" (fun i => if i == 0 then "ma" else "mb") 9
        { metadata := none
          messages := [{ content := "hello", role := "user" },
                       { content := "there", role := "assistant" }] }
        StateStore.empty).2.messages =
      [{ id := "ma", thread_id := "t1", role := "user", status := "completed"
         content := [{ value := "hello", annotations := [] }]
         file_ids := [], created_at := 9, metadata := none },
       { id := "mb", thread_id := "t1", role := "assistant", status := "completed"
         content := [{ value := "there", annotations := [] }]
         file_ids := [], created_at := 9, metadata := none }] := by
  have h := C10_thread_create_persists_messages StateStore.empty "t1"
    (fun i => if i == 0 then "ma" else "mb") 9
    { metadata := none
      messages := [{ content := "hello", role := "user" },
                   { content := "there", role := "assistant" }] }
    (by intro i _ y hy; simp [StateStore.empty] at hy)
    (by decide)
  exact h.2.1.trans (by rfl)

/-- C7: for a thread's N stored messages, the message list endpoint returns
all of them in creation order under `order=asc` and reversed under
`order=desc` (when N fits the default limit); `limit` defaults to 20 when
absent or invalid and is clamped to [1,100]; `after` is an exclusive cursor in
the current ordering (limit 2 over 5 items pages as 2-then-next-2); and a
cursor id not present in the collection yields an empty result rather than an
error. -/
theorem C7_message_listing (s : StateStore) (tid : String) (ms : List Message)
    (hms : s.messages.filter (fun m => m.thread_id = tid) = ms)
    (hnodup : ms.Pairwise (fun a b => a.id ≠ b.id)) :
    (ms.length ≤ 20 →
       MessagesMock.list tid false none (some "asc") none none s =
         ({ status_code := 200, body := .messagePage ms }, s) ∧
       MessagesMock.list tid false none (some "desc") none none s =
         ({ status_code := 200, body := .messagePage ms.reverse }, s)) ∧
    (parseLimit none = 20 ∧
     (∀ str, decimal? str = none → parseLimit (some str) = 20) ∧
     (∀ str n, decimal? str = some n → parseLimit (some str) = min 100 (max 1 n))) ∧
    (∀ m0 m1 m2 m3 m4, ms = [m0, m1, m2, m3, m4] →
       MessagesMock.list tid false (some "2") (some "asc") none none s =
         ({ status_code := 200, body := .messagePage [m0, m1] }, s) ∧
       MessagesMock.list tid false (some "2") (some "asc") (some m1.id) none s =
         ({ status_code := 200, body := .messagePage [m2, m3] }, s)) ∧
    (∀ lim ord bef cid, (∀ m ∈ ms, m.id ≠ cid) →
       MessagesMock.list tid false lim ord (some cid) bef s =
         ({ status_code := 200, body := .messagePage [] }, s)) := by
  have hlist : ∀ lim ord aft bef, MessagesMock.list tid false lim ord aft bef s =
      ({ status_code := 200,
         body := .messagePage (listCollection Message.id ms lim ord aft bef) }, s) := by
    intro lim ord aft bef
    unfold MessagesMock.list StateStore.listMessages
    rw [if_neg (by simp), hms]
  refine ⟨?_, ⟨rfl, ?_, ?_⟩, ?_, ?_⟩
  · intro hlen
    constructor
    · rw [hlist]
      unfold listCollection
      simp [parseLimit]
      exact hlen
    · rw [hlist]
      unfold listCollection
      simp [parseLimit]
      exact hlen
  · intro str h; simp [parseLimit, h]
  · intro str n h; simp [parseLimit, h]
  · intro m0 m1 m2 m3 m4 hms5
    subst hms5
    simp only [List.pairwise_cons, List.mem_cons] at hnodup
    constructor
    · rw [hlist]
      unfold listCollection
      simp [parseLimit, (by decide : decimal? "2" = some 2)]
    · rw [hlist]
      unfold listCollection
      simp [parseLimit, List.findIdx?_cons, List.findIdx?_succ, hnodup,
        (by decide : decimal? "2" = some 2)]
  · intro lim ord bef cid hcid
    have hnone : ∀ l : List Message, (∀ m ∈ l, m.id ≠ cid) →
        List.findIdx? (fun y => y.id = cid) l = none := by
      intro l hl
      exact List.findIdx?_eq_none_iff.mpr (fun x hx => by simpa using hl x hx)
    rw [hlist]
    unfold listCollection
    rcases bef with _ | b <;> by_cases hord : ord = some "asc" <;>
      simp [hord, hnone ms hcid,
        hnone ms.reverse (fun m hm => hcid m (List.mem_reverse.mp hm))]

/-- A minimal stored message with a one-character id, for the listing witness. -/
def pagedMessage (c : Char) : Message :=
  { id := String.mk [c], thread_id := "t", role := "user", status := "completed"
    content := [], file_ids := [], created_at := 0, metadata := none }

/-- A store holding five messages of thread "t" in creation order. -/
def pagedStore : StateStore :=
  { StateStore.empty with
    messages := [pagedMessage 'a', pagedMessage 'b', pagedMessage 'c',
                 pagedMessage 'd', pagedMessage 'e'] }

/-- C7 witness: the listing contract evaluated on a concrete five-message
store — full ascending listing, the limit-2 pagination with the `after`
cursor, and the empty result for an unknown cursor id. -/
theorem C7_message_listing_witness :
    MessagesMock.list "t" false none (some "asc") none none pagedStore =
      ({ status_code := 200,
         body := .messagePage [pagedMessage 'a', pagedMessage 'b', pagedMessage 'c',
                               pagedMessage 'd', pagedMessage 'e'] }, pagedStore) ∧
    MessagesMock.list "t" false (some "2") (some "asc") none none pagedStore =
      ({ status_code := 200,
         body := .messagePage [pagedMessage 'a', pagedMessage 'b'] }, pagedStore) ∧
    MessagesMock.list "t" false (some "2") (some "asc") (some (pagedMessage 'b').id)
        none pagedStore =
      ({ status_code := 200,
         body := .messagePage [pagedMessage 'c', pagedMessage 'd'] }, pagedStore) ∧
    MessagesMock.list "t" false (some "2") (some "asc") (some "zzz") none pagedStore =
      ({ status_code := 200, body := .messagePage [] }, pagedStore) := by
  have h := C7_message_listing pagedStore "t"
    [pagedMessage 'a', pagedMessage 'b', pagedMessage 'c',
     pagedMessage 'd', pagedMessage 'e'] rfl (by decide)
  exact ⟨(h.1 (by decide)).1, (h.2.2.1 _ _ _ _ _ rfl).1, (h.2.2.1 _ _ _ _ _ rfl).2,
    h.2.2.2 (some "2") (some "asc") none "zzz" (by decide)⟩

end OpenAIResponses
